import Mathlib

/-!
# Verification of the hamshark capture/viewport core

A shallow embedding of the hamshark repository's data model and operations:
`Selection` and the WAV codec conversions from `src/data/audio.rs`, the
`Scaler`/`Timeline` coordinate engine from `src/gui/timeline.rs`, the capture
source from `src/pipeline/cpalsource.rs`, and the session lifecycle from
`src/session.rs`.

Modelling conventions:
* `usize` is modelled by `ℕ` and `isize` by `ℤ`; the Rust cast `isize as usize`
  wraps modulo `2^64` and is modelled by `usizeOfIsize`.
* `f32` values are modelled by `ℚ` with exact arithmetic.  Every concrete
  float appearing in a theorem below (0.5, 1.0, 10.0, products such as
  99 × 10, 32767 × 0.5, …) is exactly representable in `f32` and the
  operations on it are exact in IEEE-754 single precision, so the rational
  model agrees with the compiled code at those points.
* the Rust cast `f32 as i16` truncates toward zero and saturates at the type
  bounds (`i16SatCast`); `f32 as isize` likewise truncates toward zero, which
  for the `.floor()`-then-cast pattern used by the code is the identity on the
  already-integral value.
-/

namespace Hamshark

/-- Truncation toward zero on `ℚ`, the rounding used by Rust's `as` casts from
float to integer: `⌊q⌋` for nonnegative `q` and `⌈q⌉` for negative `q`. -/
def truncTowardZero (q : ℚ) : ℤ :=
  if 0 ≤ q then ⌊q⌋ else ⌈q⌉

/-- Rust's saturating cast `f32 as i16`: truncate toward zero, then clamp into
`[i16::MIN, i16::MAX] = [-32768, 32767]`. -/
def i16SatCast (q : ℚ) : ℤ :=
  max (-32768) (min 32767 (truncTowardZero q))

/-- Rust cast `isize as usize` (64-bit): reinterpretation, i.e. reduction
modulo `2^64`. -/
def usizeOfIsize (v : ℤ) : ℕ :=
  (v % (2 ^ 64)).toNat

/-! ## `Selection` (src/data/audio.rs lines 62-86)

`pub struct Selection { pub range: Range<usize> }`.  The `Range` field names
are `start` and `end`; `end` is a Lean keyword, so the field is called `stop`
here. -/

/-- Embeds `Selection` from src/data/audio.rs: a `Range<usize>` with fields
`start` and `end` (the latter named `stop` here). -/
structure Selection where
  start : ℕ
  stop : ℕ
  deriving DecidableEq, Repr

namespace Selection

/-- Embeds `Selection::new(a, b)` (audio.rs lines 68-72): the range
`min(a, b)..max(a, b)`. -/
def new (a b : ℕ) : Selection :=
  { start := min a b, stop := max a b }

/-- Embeds `Selection::update_bounds(&mut self, n)` (audio.rs lines 74-85).  The
method first mutates `self.range.start = 7`, then returns a fresh `Selection`
built from `n` and the mutated bounds.  The result models the pair
(new value of `self`, returned `Selection`). -/
def update_bounds (s : Selection) (n : ℕ) : Selection × Selection :=
  let s' : Selection := { s with start := 7 }
  (s', if n < s'.start then { start := n, stop := s'.stop }
       else { start := s'.start, stop := n })

end Selection

/-- The primary-button drag handling of
`Timeline::update_and_show_sample_explorer` (timeline.rs lines 329-340): a
drag start builds `Selection::new(a, b)`, and each later drag frame calls
`selection.update_bounds(n)` on the stored selection, discarding the returned
value (only the `&mut self` mutation is kept). -/
def dragSelection (a b : ℕ) (ns : List ℕ) : Selection :=
  ns.foldl (fun s n => (s.update_bounds n).1) (Selection.new a b)

/-! ## WAV codec conversions (src/data/audio.rs lines 148-154,
src/pipeline/wavsink.rs lines 24-36) -/

namespace WavClip

/-- Embeds `WavClip::f32_to_i16` (audio.rs lines 148-150):
`(sample * i16::MAX as f32) as i16`.  The same expression appears inline in
`WavSink::process` (wavsink.rs line 28). -/
def f32_to_i16 (sample : ℚ) : ℤ :=
  i16SatCast (sample * 32767)

/-- Embeds `WavClip::i16_to_f32` (audio.rs lines 152-154):
`sample as f32 / i16::MAX as f32`. -/
def i16_to_f32 (sample : ℤ) : ℚ :=
  (sample : ℚ) / 32767

end WavClip

/-! ## `Timeline` and the `Scaler` trait (src/gui/timeline.rs)

`Timeline` implements `Scaler` with `screen_space = (width, height)`,
`data_space = (sample_len, height)`, `scale() = (scale, vscale)` and
`offset() = offset` (timeline.rs lines 519-544).  The GUI-only fields
(`clip`, `samples_per_fft`, `drag_state`, `cursor_pos`) play no role in the
coordinate claims and are omitted. -/

/-- The `Timeline` state (timeline.rs lines 118-143) restricted to the fields
the coordinate engine reads. -/
structure Timeline where
  height : ℕ
  width : ℕ
  sample_len : ℕ
  scale : ℚ
  vscale : ℚ
  offset : ℕ
  live : Bool
  selection : Option Selection
  deriving DecidableEq, Repr

namespace Timeline

/-- Embeds `Scaler::screen_to_data_x_without_offset` (timeline.rs lines 35-37):
`(x as f32 * self.scale().x).floor() as isize`.  The `as isize` cast of an
already-integral float is exact. -/
def screen_to_data_x_without_offset (t : Timeline) (x : ℤ) : ℤ :=
  ⌊(x : ℚ) * t.scale⌋

/-- Embeds `Scaler::screen_to_data_x` (timeline.rs lines 60-62):
`screen_to_data_x_without_offset(x) + offset as isize`. -/
def screen_to_data_x (t : Timeline) (x : ℤ) : ℤ :=
  t.screen_to_data_x_without_offset x + (t.offset : ℤ)

/-- Embeds `Scaler::screen_x_coordinate_to_data_range` (timeline.rs lines 43-49):
`(screen_to_data_x(x) as usize) ..
 (screen_to_data_x(x + 1).clamp(0, data_space().x as isize) as usize)`.
The half-open `Range<usize>` is modelled as a pair (start, end);
`clamp(lo, hi)` is `min hi (max lo ·)`. -/
def screen_x_coordinate_to_data_range (t : Timeline) (x : ℕ) : ℕ × ℕ :=
  (usizeOfIsize (t.screen_to_data_x x),
   usizeOfIsize (min (t.sample_len : ℤ) (max 0 (t.screen_to_data_x (x + 1)))))

/-- Embeds `Timeline::pan_action` (timeline.rs lines 205-209): sets `live = false`,
then `offset = (offset as isize - screen_to_data_x_without_offset(delta.x))
.clamp(0, isize::MAX) as usize`. -/
def pan_action (t : Timeline) (deltaX : ℤ) : Timeline :=
  let t1 := { t with live := false }
  let newoffset := (t1.offset : ℤ) - t1.screen_to_data_x_without_offset deltaX
  { t1 with offset := (min (2 ^ 63 - 1) (max 0 newoffset)).toNat }

/-- The sample-length refresh and live-follow step of
`Timeline::update_and_show_sample_explorer` (timeline.rs lines 232-240):
`sample_len` is set to the store's current length `L`; then, if `live`,
`offset = if (L as isize - screen_to_data_x_without_offset(width)) < 0
          then 0 else that value as usize`. -/
def liveFollowUpdate (t : Timeline) (L : ℕ) : Timeline :=
  let t1 := { t with sample_len := L }
  if t1.live then
    let data_vis_width := t1.screen_to_data_x_without_offset (t1.width : ℤ)
    let newoffset := (t1.sample_len : ℤ) - data_vis_width
    { t1 with offset := if newoffset < 0 then 0 else newoffset.toNat }
  else t1

end Timeline

/-! ## Clip write / decode model (src/data/audio.rs lines 100-172)

`WavClip`'s persistence-relevant state: the in-memory `samples` store, the
i16 samples that have been written to the wav file through the
`hound::WavWriter`, and whether the writer is still open (`writer: Option<…>`,
`Some` iff writable). -/

/-- Embeds `Error::ReadOnly` from audio.rs lines 21-29 (the variants not reachable
in the modelled operations are omitted). -/
inductive AudioError where
  | ReadOnly
  deriving DecidableEq, Repr

/-- The persistence-relevant state of a `WavClip`: `samples` is the in-memory
`Samples` vector, `fileData` the i16 payload written to the file so far, and
`writerOpen` the presence of the `writer` field. -/
structure WavClipM where
  samples : List ℚ
  fileData : List ℤ
  writerOpen : Bool
  deriving DecidableEq, Repr

namespace WavClipM

/-- Embeds `WavClip::record_new` (audio.rs lines 101-115): an empty sample store
with a freshly created writer. -/
def recordNew : WavClipM :=
  { samples := [], fileData := [], writerOpen := true }

/-- Embeds `WavClip::write_samples` (audio.rs lines 156-171): with an open writer,
extend the in-memory store with the batch and append `f32_to_i16` of each
sample to the file; with no writer, fail with `ReadOnly`. -/
def write_samples (c : WavClipM) (batch : List ℚ) : Except AudioError WavClipM :=
  match c.writerOpen with
  | true => .ok { c with
      samples := c.samples ++ batch,
      fileData := c.fileData ++ batch.map WavClip.f32_to_i16 }
  | false => .error .ReadOnly

end WavClipM

/-- Sequencing `write_samples` calls: apply each batch in turn, stopping at
the first error. -/
def writeSeq : WavClipM → List (List ℚ) → Except AudioError WavClipM
  | c, [] => .ok c
  | c, b :: bs =>
    match c.write_samples b with
    | .ok c' => writeSeq c' bs
    | .error e => .error e

/-- A whole recording: every batch written through `write_samples` starting
from a fresh writable clip. -/
def writeBatches (batches : List (List ℚ)) : Except AudioError WavClipM :=
  writeSeq WavClipM.recordNew batches

/-- The decoding loop of `WavClip::from_file` (audio.rs lines 131-137): every
i16 sample of the file is pushed through `i16_to_f32`, in file order. -/
def decodeFile (fileData : List ℤ) : List ℚ :=
  fileData.map WavClip.i16_to_f32

/-! ## Pipeline state and the capture source (src/pipeline.rs,
src/pipeline/cpalsource.rs) -/

/-- Embeds `pipeline::State` (pipeline.rs lines 11-16). -/
inductive PipelineState where
  | Stopped
  | Paused
  | Playing
  deriving DecidableEq, Repr

/-- Embeds `pipeline::Error` (pipeline.rs lines 18-30); the payloads (strings,
platform error values) are dropped. -/
inductive PipelineError where
  | CannotPause
  | PlayStream
  | BuildStream
  | Incomplete
  | PlatformError
  deriving DecidableEq, Repr

/-- Embeds `CpalSource` (cpalsource.rs lines 9-14).  The cpal device, stream handle
and mpsc sender are opaque platform values, abstracted as type parameters;
the capture buffer keeps its f32 (here `ℚ`) samples. -/
structure CpalSource (Dev Stream Chan : Type) where
  audioinputdevice : Dev
  stream : Option Stream
  samples : List ℚ
  on_data : Option Chan

/-- The outcome of the platform calls made on the cold path of
`CpalSource::play`: `build_input_stream` may fail, the built stream's
`play()` may fail, or both succeed and yield a live stream handle. -/
inductive PlatformOutcome (Stream : Type) where
  | buildFailed
  | playFailed
  | started (s : Stream)

namespace CpalSource

/-- Embeds `From<AudioInputDevice> for CpalSource` (cpalsource.rs lines 16-25): no
stream, empty sample buffer, no notifier. -/
def fromDevice (dev : Dev) : CpalSource Dev Strm Chan :=
  { audioinputdevice := dev, stream := none, samples := [], on_data := none }

/-- Embeds `CpalSource::play` (cpalsource.rs lines 36-85): if a stream is already
held, return `Ok(())` at once with no other effect; otherwise build and start
a stream (outcome supplied by the platform oracle), storing the handle on
success and reporting a `BuildStream`/`PlayStream` error otherwise.  The
result pairs the post-state with the returned `Result`. -/
def play (c : CpalSource Dev Strm Chan) (platform : PlatformOutcome Strm) :
    CpalSource Dev Strm Chan × Except PipelineError Unit :=
  if c.stream.isSome then (c, .ok ())
  else
    match platform with
    | .started s => ({ c with stream := some s }, .ok ())
    | .playFailed => (c, .error .PlayStream)
    | .buildFailed => (c, .error .BuildStream)

/-- Embeds `CpalSource::stop` (cpalsource.rs lines 91-97): take and drop the stream
handle if any; always returns `Ok(())`. -/
def stop (c : CpalSource Dev Strm Chan) :
    CpalSource Dev Strm Chan × Except PipelineError Unit :=
  ({ c with stream := none }, .ok ())

/-- Embeds `CpalSource::state` (cpalsource.rs lines 103-108): `Playing` when a
stream is held, otherwise `Paused` (as written in the source). -/
def state (c : CpalSource Dev Strm Chan) : PipelineState :=
  match c.stream with
  | some _ => .Playing
  | none => .Paused

end CpalSource

/-! ## Session lifecycle (src/session.rs) -/

/-- Embeds `session::Error` (session.rs lines 16-28); payloads dropped. -/
inductive SessionError where
  | AlreadyRecording
  | NotRunning
  | NoAudioConfiguration
  | DirectoryRead
  | CreateClip
  deriving DecidableEq, Repr

/-- Modelled from the spec: the `Clip` tracked by `Session` (the session-side
`Clip` type with `is_writable`/`new`/`open` is referenced by session.rs but
its definition is not among the source files; `src/data/audio.rs`'s `WavClip`
realizes writability as `writer.is_some()`).  Per the spec, a Clip is either
"Writable (being recorded) or finalized/read-only", so only that mode bit is
kept. -/
structure SessionClip where
  writable : Bool
  deriving DecidableEq, Repr

/-- Embeds `Session` (session.rs lines 30-40) restricted to the fields the lifecycle
operations touch: the tracked clips, whether an `AudioInputDevice` is
configured (`audioconfig: Option<…>`), and whether a capture stream is active
(`stream: Option<Stream>`).  `filesCreated` is a ghost counter of the files
created on disk by `Clip::new` (via `WavWriter::create`). -/
structure SessionM where
  clips : List SessionClip
  audioconfigured : Bool
  streamActive : Bool
  filesCreated : ℕ
  deriving DecidableEq, Repr

namespace SessionM

/-- Embeds `Session::get_recording_clip` (session.rs lines 154-161): the first
tracked clip that `is_writable()`, if any. -/
def get_recording_clip (s : SessionM) : Option SessionClip :=
  s.clips.find? (·.writable)

/-- Embeds `Session::is_configured` (session.rs lines 100-102). -/
def is_configured (s : SessionM) : Bool :=
  s.audioconfigured

/-- Embeds `Session::is_started` (session.rs lines 108-110): `stream.is_some()`. -/
def is_started (s : SessionM) : Bool :=
  s.streamActive

/-- Embeds `Session::record_new_clip` (session.rs lines 163-186): fail with
`AlreadyRecording` if some tracked clip is writable, then with
`NoAudioConfiguration` if no audio configuration is set; otherwise create the
wav file and track the fresh writable clip.  The result pairs the post-state
(the method takes `&mut self`) with the returned `Result`. -/
def record_new_clip (s : SessionM) : SessionM × Except SessionError Unit :=
  if s.get_recording_clip.isSome then (s, .error .AlreadyRecording)
  else if ¬s.is_configured then (s, .error .NoAudioConfiguration)
  else ({ s with
      clips := s.clips ++ [{ writable := true }],
      filesCreated := s.filesCreated + 1 }, .ok ())

/-- Embeds `Session::stop` (session.rs lines 285-295): fail with `NotRunning` when
no stream is active; otherwise take, pause and drop the stream. -/
def stop (s : SessionM) : SessionM × Except SessionError Unit :=
  if ¬s.is_started then (s, .error .NotRunning)
  else ({ s with streamActive := false }, .ok ())

end SessionM

/-! ## Concrete fixtures used by witnesses and counterexamples -/

/-- The C4 concrete scenario: width 100 px, scale 10 samples/pixel,
offset 0, 1500 stored samples. -/
def c4Timeline : Timeline :=
  { height := 256, width := 100, sample_len := 1500, scale := 10, vscale := 1,
    offset := 0, live := false, selection := none }

/-- The same viewport with live-follow enabled. -/
def c5Timeline : Timeline :=
  { c4Timeline with live := true }

/-- A session that is configured but has no active stream and no writable
clip. -/
def idleSession : SessionM :=
  { clips := [], audioconfigured := true, streamActive := false,
    filesCreated := 0 }

/-- A session with a tracked writable (recording) clip. -/
def recordingSession : SessionM :=
  { clips := [{ writable := true }], audioconfigured := true,
    streamActive := true, filesCreated := 1 }

/-- A freshly constructed capture source (never started). -/
def freshCpal : CpalSource Unit Unit Unit :=
  CpalSource.fromDevice ()

/-- A capture source currently holding a live stream. -/
def playingCpal : CpalSource Unit Unit Unit :=
  { freshCpal with stream := some () }

/-! ## Helper lemmas about the numeric model -/

theorem truncTowardZero_of_nonneg {q : ℚ} (h : 0 ≤ q) :
    truncTowardZero q = ⌊q⌋ := by
  simp [truncTowardZero, h]

theorem truncTowardZero_of_neg {q : ℚ} (h : q < 0) :
    truncTowardZero q = ⌈q⌉ := by
  simp [truncTowardZero, not_le.mpr h]

theorem truncTowardZero_le_of_nonneg {q : ℚ} (h : 0 ≤ q) :
    0 ≤ truncTowardZero q ∧ (truncTowardZero q : ℚ) ≤ q := by
  rw [truncTowardZero_of_nonneg h]
  exact ⟨Int.floor_nonneg.mpr h, Int.floor_le q⟩

theorem truncTowardZero_ge_of_nonpos {q : ℚ} (h : q ≤ 0) :
    q ≤ (truncTowardZero q : ℚ) ∧ truncTowardZero q ≤ 0 := by
  rcases lt_or_eq_of_le h with hlt | rfl
  · rw [truncTowardZero_of_neg hlt]
    exact ⟨Int.le_ceil q, Int.ceil_le.mpr (by exact_mod_cast h)⟩
  · simp [truncTowardZero]

theorem abs_truncTowardZero_sub_lt_one (q : ℚ) :
    |(truncTowardZero q : ℚ) - q| < 1 := by
  rcases le_or_lt 0 q with h | h
  · rw [truncTowardZero_of_nonneg h, abs_sub_comm,
      abs_of_nonneg (by linarith [Int.floor_le q])]
    linarith [Int.sub_one_lt_floor q]
  · rw [truncTowardZero_of_neg h, abs_of_nonneg (by linarith [Int.le_ceil q])]
    linarith [Int.ceil_lt_add_one q]

/-- With `|q| ≤ 32767` the saturating i16 cast does not clamp. -/
theorem i16SatCast_eq_trunc {q : ℚ} (h1 : -32767 ≤ q) (h2 : q ≤ 32767) :
    i16SatCast q = truncTowardZero q := by
  have hub : truncTowardZero q ≤ 32767 := by
    rcases le_or_lt 0 q with h | h
    · have := (truncTowardZero_le_of_nonneg h).2
      exact_mod_cast (by linarith : (truncTowardZero q : ℚ) ≤ 32767)
    · have := (truncTowardZero_ge_of_nonpos (le_of_lt h)).2
      omega
  have hlb : -32768 ≤ truncTowardZero q := by
    rcases le_or_lt 0 q with h | h
    · have := (truncTowardZero_le_of_nonneg h).1
      omega
    · have := (truncTowardZero_ge_of_nonpos (le_of_lt h)).1
      exact_mod_cast (by linarith : (-32768 : ℚ) ≤ (truncTowardZero q : ℚ))
  simp [i16SatCast, min_eq_right hub, max_eq_right hlb]

/-- On `[-1, 1]` the encoder is exactly multiply-by-32767 then truncate
toward zero: the saturating clamp of the cast is inactive. -/
theorem f32_to_i16_eq_trunc {s : ℚ} (h1 : -1 ≤ s) (h2 : s ≤ 1) :
    WavClip.f32_to_i16 s = truncTowardZero (s * 32767) := by
  unfold WavClip.f32_to_i16
  rw [mul_comm]
  exact i16SatCast_eq_trunc (by linarith) (by linarith)

theorem usizeOfIsize_eq_toNat {v : ℤ} (h0 : 0 ≤ v) (h1 : v < 2 ^ 64) :
    usizeOfIsize v = v.toNat := by
  unfold usizeOfIsize
  rw [Int.emod_eq_of_lt h0 h1]

/-- Decode-after-encode error bound on `[-1, 1]`: at most one 16-bit
quantization step `1/32767`. -/
theorem roundtrip_bound {s : ℚ} (h1 : -1 ≤ s) (h2 : s ≤ 1) :
    |WavClip.i16_to_f32 (WavClip.f32_to_i16 s) - s| ≤ 1 / 32767 := by
  rw [f32_to_i16_eq_trunc h1 h2]
  unfold WavClip.i16_to_f32
  have heq : (truncTowardZero (s * 32767) : ℚ) / 32767 - s
      = ((truncTowardZero (s * 32767) : ℚ) - s * 32767) / 32767 := by
    ring
  rw [heq, abs_div, abs_of_pos (by norm_num : (0 : ℚ) < 32767)]
  exact (div_le_div_iff_of_pos_right (by norm_num : (0 : ℚ) < 32767)).mpr
    (abs_truncTowardZero_sub_lt_one (s * 32767)).le

/-- Sequencing `write_samples` from any writable clip appends the
concatenated batches in memory and their encodings to the file. -/
theorem writeSeq_ok (batches : List (List ℚ)) :
    ∀ c : WavClipM, c.writerOpen = true →
      writeSeq c batches
        = Except.ok { samples := c.samples ++ batches.flatten,
                      fileData := c.fileData
                        ++ batches.flatten.map WavClip.f32_to_i16,
                      writerOpen := true } := by
  induction batches with
  | nil =>
      intro c h
      cases c with
      | mk s f w =>
          cases w
          · simp at h
          · simp [writeSeq]
  | cons b bs ih =>
      intro c h
      cases c with
      | mk s f w =>
          cases w
          · simp at h
          · rw [writeSeq]
            simp only [WavClipM.write_samples]
            rw [ih _ rfl]
            simp [List.append_assoc, List.map_append]

/-- A whole recording from a fresh clip is always accepted and its file holds
the encodings of the concatenated batches. -/
theorem writeBatches_ok (batches : List (List ℚ)) :
    writeBatches batches
      = Except.ok { samples := batches.flatten,
                    fileData := batches.flatten.map WavClip.f32_to_i16,
                    writerOpen := true } := by
  have h := writeSeq_ok batches WavClipM.recordNew rfl
  simpa [writeBatches, WavClipM.recordNew] using h

/-- Pointwise round-trip tolerance over a list of in-range samples. -/
theorem roundtrip_forall₂ (l : List ℚ) (h : ∀ q ∈ l, -1 ≤ q ∧ q ≤ 1) :
    List.Forall₂ (fun d m => |d - m| ≤ 1 / 32767)
      (decodeFile (l.map WavClip.f32_to_i16)) l := by
  induction l with
  | nil => exact List.Forall₂.nil
  | cons q l ih =>
      have hq := h q (List.mem_cons_self q l)
      exact List.Forall₂.cons (roundtrip_bound hq.1 hq.2)
        (ih fun r hr => h r (List.mem_cons_of_mem q hr))

/-- The live-follow step in one equation: `sample_len` becomes the store's
length and, when live, `offset` becomes `(L - ⌊width·scale⌋).toNat` (the
guard `newoffset < 0 → 0` coincides with `toNat`'s truncation at zero). -/
theorem liveFollowUpdate_eq (t : Timeline) (L : ℕ) (hl : t.live = true) :
    t.liveFollowUpdate L
      = { t with
          sample_len := L
          offset := ((L : ℤ) - ⌊(t.width : ℚ) * t.scale⌋).toNat } := by
  unfold Timeline.liveFollowUpdate Timeline.screen_to_data_x_without_offset
  simp only [hl, if_true, Int.cast_natCast]
  split_ifs with h
  · rw [Int.toNat_of_nonpos (by omega)]
  · rfl

/-- Nonnegativity of `screen_to_data_x` at a nonnegative pixel column when
the scale is nonnegative. -/
theorem screen_to_data_x_nonneg (t : Timeline) (x : ℕ) (hs : 0 ≤ t.scale) :
    0 ≤ t.screen_to_data_x (x : ℤ) := by
  unfold Timeline.screen_to_data_x Timeline.screen_to_data_x_without_offset
  have h1 : (0 : ℤ) ≤ ⌊((x : ℤ) : ℚ) * t.scale⌋ :=
    Int.floor_nonneg.mpr (mul_nonneg (by positivity) hs)
  have h2 : (0 : ℤ) ≤ (t.offset : ℤ) := Int.natCast_nonneg _
  omega

/-- Monotonicity of `screen_to_data_x` in the pixel column when the scale is
nonnegative. -/
theorem screen_to_data_x_mono (t : Timeline) {x y : ℕ} (hxy : x ≤ y)
    (hs : 0 ≤ t.scale) :
    t.screen_to_data_x (x : ℤ) ≤ t.screen_to_data_x (y : ℤ) := by
  unfold Timeline.screen_to_data_x Timeline.screen_to_data_x_without_offset
  have h1 : ⌊((x : ℤ) : ℚ) * t.scale⌋ ≤ ⌊((y : ℤ) : ℚ) * t.scale⌋ := by
    apply Int.floor_le_floor
    have : ((x : ℤ) : ℚ) ≤ ((y : ℤ) : ℚ) := by exact_mod_cast hxy
    exact mul_le_mul_of_nonneg_right this hs
  omega

/-! ## The claims -/

/-- C1: the spec asserts that after any primary-button drag sequence the
selection satisfies `start ≤ end` with both bounds in `[0, sample_count]`.
The code violates this: `Selection::update_bounds` begins with
`self.range.start = 7`, so starting a drag at data coordinate 0 (selection
`0..0`) and moving once to coordinate 0 leaves the stored selection at
`7..0`, with `start > end` and `start` beyond a sample count of 0. -/
theorem C1_selection_invariant_violated :
    dragSelection 0 0 [0] = { start := 7, stop := 0 } ∧
    ¬(dragSelection 0 0 [0]).start ≤ (dragSelection 0 0 [0]).stop := by
  constructor <;> decide

/-- C2 (counterexample): the claim predicts that the batch
`[0.5, -0.5, 1.0, -1.0]` encodes to second element -16384 and fourth element
-32768; the code's truncation toward zero of `s * i16::MAX` yields -16383
and -32767 instead. -/
theorem C2_counterexample :
    WavClip.f32_to_i16 (-(1 / 2)) = -16383 ∧
    WavClip.f32_to_i16 (-1) = -32767 ∧
    (-16383 : ℤ) ≠ -16384 ∧ (-32767 : ℤ) ≠ -32768 := by
  refine ⟨?_, ?_, by decide, by decide⟩ <;>
    norm_num [WavClip.f32_to_i16, i16SatCast, truncTowardZero, Int.ceil_neg]

/-- C2 (amended): sample encoding multiplies by `i16::MAX = 32767` and
truncates toward zero (the cast saturates at the i16 bounds, which is
inactive on `[-1, 1]`); the batch `[0.5, -0.5, 1.0, -1.0]` encodes to
`[16383, -16383, 32767, -32767]`. -/
theorem C2_encode_truncates_toward_zero :
    (∀ s : ℚ, -1 ≤ s → s ≤ 1 →
        WavClip.f32_to_i16 s = truncTowardZero (s * 32767)) ∧
    [(1 : ℚ) / 2, -(1 / 2), 1, -1].map WavClip.f32_to_i16
      = [16383, -16383, 32767, -32767] := by
  refine ⟨fun s h1 h2 => f32_to_i16_eq_trunc h1 h2, ?_⟩
  simp only [List.map]
  norm_num [WavClip.f32_to_i16, i16SatCast, truncTowardZero, Int.ceil_neg]

/-- C2 (witness): the amended encoding rule applied at `s = 1/2`. -/
theorem C2_witness :
    WavClip.f32_to_i16 (1 / 2) = truncTowardZero ((1 / 2 : ℚ) * 32767) :=
  C2_encode_truncates_toward_zero.1 (1 / 2) (by norm_num) (by norm_num)

/-- C9 (counterexample): the claim asserts every decoded sample lies in
`[-1, 1]`, including the decode of -32768; in fact
`i16_to_f32(-32768) = -32768/32767 < -1`. -/
theorem C9_counterexample : WavClip.i16_to_f32 (-32768) < -1 := by
  norm_num [WavClip.i16_to_f32]

/-- C9 (amended): decoded samples lie in `[-32768/32767, 1]`; the decode is
within `[-1, 1]` for every stored value except -32768, whose decode
`-32768/32767` falls just below -1. -/
theorem C9_decode_range :
    (∀ v : ℤ, -32768 ≤ v → v ≤ 32767 →
        -(32768 / 32767 : ℚ) ≤ WavClip.i16_to_f32 v ∧
        WavClip.i16_to_f32 v ≤ 1) ∧
    (∀ v : ℤ, -32767 ≤ v → v ≤ 32767 →
        -1 ≤ WavClip.i16_to_f32 v ∧ WavClip.i16_to_f32 v ≤ 1) := by
  constructor
  · intro v hlo hhi
    have hlo' : (-32768 : ℚ) ≤ (v : ℚ) := by exact_mod_cast hlo
    have hhi' : (v : ℚ) ≤ 32767 := by exact_mod_cast hhi
    unfold WavClip.i16_to_f32
    constructor
    · rw [le_div_iff₀ (by norm_num : (0 : ℚ) < 32767)]
      linarith
    · rw [div_le_one (by norm_num : (0 : ℚ) < 32767)]
      linarith
  · intro v hlo hhi
    have hlo' : (-32767 : ℚ) ≤ (v : ℚ) := by exact_mod_cast hlo
    have hhi' : (v : ℚ) ≤ 32767 := by exact_mod_cast hhi
    unfold WavClip.i16_to_f32
    constructor
    · rw [le_div_iff₀ (by norm_num : (0 : ℚ) < 32767)]
      linarith
    · rw [div_le_one (by norm_num : (0 : ℚ) < 32767)]
      linarith

/-- C9 (witness): the amended bounds at `v = -32768` and `v = -32767`. -/
theorem C9_witness :
    (-(32768 / 32767 : ℚ) ≤ WavClip.i16_to_f32 (-32768) ∧
      WavClip.i16_to_f32 (-32768) ≤ 1) ∧
    (-1 ≤ WavClip.i16_to_f32 (-32767) ∧ WavClip.i16_to_f32 (-32767) ≤ 1) :=
  ⟨C9_decode_range.1 (-32768) (by norm_num) (by norm_num),
   C9_decode_range.2 (-32767) (by norm_num) (by norm_num)⟩

/-- C8: the spec's state machine says `state()` only reports `Stopped` or
`Playing` and that `Paused` is unreachable for a capture source.  The code
maps an absent stream to `State::Paused` (cpalsource.rs line 106), so a
never-started source — and any source after `stop()` — reports `Paused`,
never `Stopped`. -/
theorem C8_state_paused_when_stopped :
    CpalSource.state freshCpal = PipelineState.Paused ∧
    PipelineState.Paused ≠ PipelineState.Stopped ∧
    ∀ (D S C : Type) (c : CpalSource D S C),
      CpalSource.state (CpalSource.stop c).1 = PipelineState.Paused := by
  refine ⟨rfl, by decide, fun D S C c => rfl⟩

/-- C10: calling `play()` on a source that already holds a stream returns
`Ok(())` immediately and leaves the source (stream handle, sample buffer,
device configuration, notifier) unchanged. -/
theorem C10_play_noop_when_playing :
    ∀ (D S C : Type) (c : CpalSource D S C) (p : PlatformOutcome S),
      c.stream.isSome = true → CpalSource.play c p = (c, Except.ok ()) := by
  intro D S C c p h
  simp [CpalSource.play, h]

/-- C3: for every sample in `[-1, 1]` the decode of the encode is within one
16-bit quantization step (`1/32767`) of the original; consequently, for
every sequence of in-range batches written to a fresh writable clip, the
file decodes to a sample list of the same length as the in-memory store, in
order, each entry within the quantization tolerance of its stored value. -/
theorem C3_roundtrip_quantization :
    (∀ s : ℚ, -1 ≤ s → s ≤ 1 →
        |WavClip.i16_to_f32 (WavClip.f32_to_i16 s) - s| ≤ 1 / 32767) ∧
    (∀ batches : List (List ℚ),
        (∀ b ∈ batches, ∀ q ∈ b, -1 ≤ q ∧ q ≤ 1) →
        ∃ c : WavClipM, writeBatches batches = Except.ok c ∧
          List.Forall₂ (fun d m => |d - m| ≤ 1 / 32767)
            (decodeFile c.fileData) c.samples) := by
  constructor
  · exact fun s h1 h2 => roundtrip_bound h1 h2
  · intro batches h
    refine ⟨_, writeBatches_ok batches, ?_⟩
    exact roundtrip_forall₂ batches.flatten fun q hq => by
      rcases List.mem_flatten.mp hq with ⟨b, hb, hqb⟩
      exact h b hb q hqb

/-- C3 (witness): the tolerance at `s = 1/2` and the round-trip for the
concrete recording `[[1/2, -1/2]]`. -/
theorem C3_witness :
    |WavClip.i16_to_f32 (WavClip.f32_to_i16 (1 / 2)) - 1 / 2| ≤ 1 / 32767 ∧
    ∃ c : WavClipM, writeBatches [[(1 : ℚ) / 2, -(1 / 2)]] = Except.ok c ∧
      List.Forall₂ (fun d m => |d - m| ≤ 1 / 32767)
        (decodeFile c.fileData) c.samples :=
  ⟨C3_roundtrip_quantization.1 (1 / 2) (by norm_num) (by norm_num),
   C3_roundtrip_quantization.2 [[(1 : ℚ) / 2, -(1 / 2)]] (by
      intro b hb q hq
      fin_cases hb
      fin_cases hq <;> norm_num)⟩

/-- C4: `screen_to_data_x(x) = ⌊x·scale⌋ + offset`; for a nonnegative scale
(and values inside the `isize`/`usize` ranges, where the integer casts are
the identity) `screen_x_coordinate_to_data_range(x)` is the half-open range
from `screen_to_data_x(x)` to `screen_to_data_x(x+1)` clamped to the data
length; and in the concrete scenario (width 100, scale 10, offset 0,
1500 samples) pixel column 99 maps to the range [990, 1000). -/
theorem C4_screen_to_data_mapping :
    (∀ (t : Timeline) (x : ℤ),
        t.screen_to_data_x x = ⌊(x : ℚ) * t.scale⌋ + (t.offset : ℤ)) ∧
    (∀ (t : Timeline) (x : ℕ), 0 ≤ t.scale →
        (t.sample_len : ℤ) < 2 ^ 64 →
        t.screen_to_data_x ((x + 1 : ℕ) : ℤ) < 2 ^ 64 →
        t.screen_x_coordinate_to_data_range x
          = ((t.screen_to_data_x (x : ℤ)).toNat,
             (min (t.sample_len : ℤ)
                (t.screen_to_data_x ((x + 1 : ℕ) : ℤ))).toNat)) ∧
    c4Timeline.screen_x_coordinate_to_data_range 99 = (990, 1000) := by
  refine ⟨fun t x => rfl, ?_, ?_⟩
  · intro t x hs hlen hub
    have h0a : 0 ≤ t.screen_to_data_x (x : ℤ) := screen_to_data_x_nonneg t x hs
    have h0b : 0 ≤ t.screen_to_data_x ((x + 1 : ℕ) : ℤ) :=
      screen_to_data_x_nonneg t (x + 1) hs
    have hmono : t.screen_to_data_x (x : ℤ)
        ≤ t.screen_to_data_x ((x + 1 : ℕ) : ℤ) :=
      screen_to_data_x_mono t (Nat.le_succ x) hs
    simp only [Timeline.screen_x_coordinate_to_data_range,
      Timeline.screen_to_data_x, Timeline.screen_to_data_x_without_offset,
      usizeOfIsize, Prod.mk.injEq] at h0a h0b hmono hub ⊢
    push_cast at h0a h0b hmono hub ⊢
    refine ⟨?_, ?_⟩ <;> omega
  · unfold Timeline.screen_x_coordinate_to_data_range Timeline.screen_to_data_x
      Timeline.screen_to_data_x_without_offset usizeOfIsize c4Timeline
    norm_num
    omega

/-- C4 (witness): the range equation applied at the concrete scenario,
pixel column 99. -/
theorem C4_witness :
    c4Timeline.screen_x_coordinate_to_data_range 99
      = ((c4Timeline.screen_to_data_x (99 : ℤ)).toNat,
         (min (c4Timeline.sample_len : ℤ)
            (c4Timeline.screen_to_data_x ((100 : ℕ) : ℤ))).toNat) :=
  C4_screen_to_data_mapping.2.1 c4Timeline 99 (by norm_num [c4Timeline])
    (by norm_num [c4Timeline])
    (by norm_num [c4Timeline, Timeline.screen_to_data_x,
          Timeline.screen_to_data_x_without_offset])

/-- C5: with `live = true` each frame recomputes
`offset = max 0 (sample_len - ⌊width·scale⌋)`; the offset is 0 whenever the
sample count is below the data width covered by the view; any
secondary-button pan disables live-follow; and when at least a full view of
samples exists, the rightmost pixel's data range ends exactly at the newest
sample (`end = sample_len`, `start ≤ sample_len - 1`). -/
theorem C5_live_follow :
    (∀ (t : Timeline) (L : ℕ), t.live = true →
        (((t.liveFollowUpdate L).offset : ℤ))
          = max 0 ((L : ℤ) - ⌊(t.width : ℚ) * t.scale⌋)) ∧
    (∀ (t : Timeline) (L : ℕ), t.live = true →
        (L : ℤ) < ⌊(t.width : ℚ) * t.scale⌋ →
        (t.liveFollowUpdate L).offset = 0) ∧
    (∀ (t : Timeline) (d : ℤ), (t.pan_action d).live = false) ∧
    (∀ (t : Timeline) (L : ℕ), t.live = true → 1 ≤ t.scale →
        1 ≤ t.width → ⌊(t.width : ℚ) * t.scale⌋ ≤ (L : ℤ) →
        (L : ℤ) < 2 ^ 63 →
        ((t.liveFollowUpdate L).screen_x_coordinate_to_data_range
            (t.width - 1)).1 ≤ L - 1 ∧
        ((t.liveFollowUpdate L).screen_x_coordinate_to_data_range
            (t.width - 1)).2 = L) := by
  have hoff : ∀ (t : Timeline) (L : ℕ), t.live = true →
      (((t.liveFollowUpdate L).offset : ℤ))
        = max 0 ((L : ℤ) - ⌊(t.width : ℚ) * t.scale⌋) := by
    intro t L hl
    rw [liveFollowUpdate_eq t L hl]
    simp only [Int.toNat_eq_max]
    exact max_comm _ _
  refine ⟨hoff, ?_, ?_, ?_⟩
  · intro t L hl hlt
    have h := hoff t L hl
    have : (((t.liveFollowUpdate L).offset : ℕ) : ℤ) = 0 := by
      rw [h, max_eq_left (by omega)]
    exact_mod_cast this
  · intro t d
    unfold Timeline.pan_action
    rfl
  · intro t L hl hs hw hfull hlt
    rw [liveFollowUpdate_eq t L hl]
    have hw1 : (1 : ℚ) ≤ (t.width : ℚ) := by exact_mod_cast hw
    have hF1 : ⌊((t.width : ℚ) - 1) * t.scale⌋ + 1
        ≤ ⌊(t.width : ℚ) * t.scale⌋ := by
      rw [← Int.floor_add_one]
      apply Int.floor_le_floor
      nlinarith [hs]
    have hF1nonneg : 0 ≤ ⌊((t.width : ℚ) - 1) * t.scale⌋ :=
      Int.floor_nonneg.mpr (mul_nonneg (by linarith) (by linarith))
    constructor <;>
    · simp only [Timeline.screen_x_coordinate_to_data_range,
        Timeline.screen_to_data_x, Timeline.screen_to_data_x_without_offset,
        usizeOfIsize]
      push_cast [Nat.cast_sub hw]
      ring_nf
      ring_nf at hF1 hF1nonneg hfull
      omega

/-- C5 (witness): the live-follow equations at the concrete live viewport
(width 100, scale 10) with 1500 and with 5 stored samples, the pan at
delta 3, and the rightmost-pixel property with 1500 samples. -/
theorem C5_witness :
    ((c5Timeline.liveFollowUpdate 1500).offset : ℤ)
      = max 0 ((1500 : ℤ) - ⌊(c5Timeline.width : ℚ) * c5Timeline.scale⌋) ∧
    (c5Timeline.liveFollowUpdate 5).offset = 0 ∧
    (c5Timeline.pan_action 3).live = false ∧
    ((c5Timeline.liveFollowUpdate 1500).screen_x_coordinate_to_data_range
        (c5Timeline.width - 1)).1 ≤ 1500 - 1 ∧
    ((c5Timeline.liveFollowUpdate 1500).screen_x_coordinate_to_data_range
        (c5Timeline.width - 1)).2 = 1500 :=
  ⟨C5_live_follow.1 c5Timeline 1500 rfl,
   C5_live_follow.2.1 c5Timeline 5 rfl (by
      norm_num [c5Timeline, c4Timeline]),
   C5_live_follow.2.2.1 c5Timeline 3,
   (C5_live_follow.2.2.2 c5Timeline 1500 rfl
      (by norm_num [c5Timeline, c4Timeline])
      (by norm_num [c5Timeline, c4Timeline])
      (by norm_num [c5Timeline, c4Timeline])
      (by norm_num)).1,
   (C5_live_follow.2.2.2 c5Timeline 1500 rfl
      (by norm_num [c5Timeline, c4Timeline])
      (by norm_num [c5Timeline, c4Timeline])
      (by norm_num [c5Timeline, c4Timeline])
      (by norm_num)).2⟩

/-- C6 (counterexample): the claim says stopping a session in which nothing
is recording succeeds as a no-op; `Session::stop` on a session with no
active stream instead returns the `NotRunning` error (session.rs lines
286-288). -/
theorem C6_counterexample :
    (SessionM.stop idleSession).2 = Except.error SessionError.NotRunning :=
  rfl

/-- C6 (amended): stopping a never-started `CpalSource` is a no-op returning
success and changing no state; but `Session::stop` with no active stream
fails with `NotRunning` (and leaves the session unchanged) rather than
succeeding. -/
theorem C6_stop_behavior :
    (∀ (D S C : Type) (c : CpalSource D S C), c.stream = none →
        CpalSource.stop c = (c, Except.ok ())) ∧
    (∀ s : SessionM, s.streamActive = false →
        SessionM.stop s = (s, Except.error SessionError.NotRunning)) := by
  constructor
  · intro D S C c h
    unfold CpalSource.stop
    cases c
    simp_all
  · intro s h
    unfold SessionM.stop SessionM.is_started
    simp [h]

/-- C6 (witness): the amended behavior at a concrete never-started source
and the concrete idle session. -/
theorem C6_witness :
    CpalSource.stop freshCpal = (freshCpal, Except.ok ()) ∧
    SessionM.stop idleSession
      = (idleSession, Except.error SessionError.NotRunning) :=
  ⟨C6_stop_behavior.1 Unit Unit Unit freshCpal rfl,
   C6_stop_behavior.2 idleSession rfl⟩

/-- C7: `record_new_clip` fails with `AlreadyRecording` — leaving the
tracked clips and the created-file count unchanged — whenever some tracked
clip is writable; and fails with `NoAudioConfiguration` when no clip is
writable but no audio configuration is set. -/
theorem C7_record_new_clip_errors :
    (∀ s : SessionM, (∃ cl ∈ s.clips, cl.writable = true) →
        SessionM.record_new_clip s = (s, Except.error SessionError.AlreadyRecording)) ∧
    (∀ s : SessionM, (∀ cl ∈ s.clips, cl.writable = false) →
        s.audioconfigured = false →
        SessionM.record_new_clip s
          = (s, Except.error SessionError.NoAudioConfiguration)) := by
  constructor
  · intro s h
    have hsome : s.get_recording_clip.isSome = true := by
      unfold SessionM.get_recording_clip
      rcases h with ⟨cl, hmem, hw⟩
      exact List.find?_isSome.mpr ⟨cl, hmem, hw⟩
    unfold SessionM.record_new_clip
    simp [hsome]
  · intro s hall hcfg
    have hnone : s.get_recording_clip = none := by
      unfold SessionM.get_recording_clip
      exact List.find?_eq_none.mpr (fun cl hmem => by simp [hall cl hmem])
    unfold SessionM.record_new_clip
    simp [hnone, SessionM.is_configured, hcfg]

/-- C7 (witness): the two error paths at concrete sessions. -/
theorem C7_witness :
    SessionM.record_new_clip recordingSession
      = (recordingSession, Except.error SessionError.AlreadyRecording) ∧
    SessionM.record_new_clip { idleSession with audioconfigured := false }
      = ({ idleSession with audioconfigured := false },
         Except.error SessionError.NoAudioConfiguration) :=
  ⟨C7_record_new_clip_errors.1 recordingSession
      ⟨{ writable := true }, by decide, rfl⟩,
   C7_record_new_clip_errors.2 { idleSession with audioconfigured := false }
      (fun cl hmem => by simp [idleSession] at hmem) rfl⟩

/-- C10 (witness): `play` on a concrete playing source with a concrete
platform oracle. -/
theorem C10_witness :
    CpalSource.play playingCpal PlatformOutcome.buildFailed
      = (playingCpal, Except.ok ()) :=
  C10_play_noop_when_playing Unit Unit Unit playingCpal
    PlatformOutcome.buildFailed rfl

end Hamshark
